import Mathlib

/-!
Shallow embedding of the KrakenHashes Python API client
(`docs/user-api/examples/python_client.py`) and proofs about it.

The embedding models:
* the shared transport path `KrakenHashesClient._request` (error
  classification of non-2xx responses),
* the request built by every gateway method (headers, query parameters,
  JSON bodies, and the multipart upload of `create_hashlist`),
* the polling loop of `job_monitoring_example`.

Python dictionaries that the script builds key-by-key are modelled as
association lists in insertion order; Python `None`-able arguments are
`Option`; Python truthiness of strings/ints is modelled explicitly.
-/

namespace KrakenHashes

/-- JSON-like values appearing in request bodies and query parameters. -/
inductive JVal where
  | str (s : String)
  | int (n : Int)
  | bool (b : Bool)
  deriving DecidableEq, Repr

/-- Look up a key in an association list (first match), like `dict.get`. -/
def lookupKey {α : Type} (m : List (String × α)) (k : String) : Option α :=
  match m with
  | [] => none
  | (k', v) :: rest => if k' = k then some v else lookupKey rest k

/-- Whether a key is present in an association list. -/
def hasKey {α : Type} (m : List (String × α)) (k : String) : Bool :=
  (lookupKey m k).isSome

/-- Python truthiness of an optional string argument:
`if x:` is true iff the argument was supplied and is non-empty. -/
def truthyStr (x : Option String) : Bool :=
  match x with
  | some s => s ≠ ""
  | none => false

/-- Python truthiness of an optional int argument:
`if x:` is true iff the argument was supplied and is non-zero. -/
def truthyInt (x : Option Int) : Bool :=
  match x with
  | some n => n ≠ 0
  | none => false

/-- Python lstrip with a slash argument: drop leading slashes. -/
def lstripSlash (s : String) : String :=
  String.mk (s.toList.dropWhile (fun c => c = '/'))

/-- Python rstrip with a slash argument: drop trailing slashes. -/
def rstripSlash (s : String) : String :=
  String.mk ((s.toList.reverse.dropWhile (fun c => c = '/')).reverse)

/-- ASCII lowercase of one character. -/
def lowerChar (c : Char) : Char :=
  if 'A' ≤ c ∧ c ≤ 'Z' then Char.ofNat (c.toNat + 32) else c

/-- Python `str.lower()` (the keys it is applied to here are ASCII
header names). -/
def asciiLower (s : String) : String :=
  String.mk (s.toList.map lowerChar)

/-- `pathlib.Path(p).name`: the final path component (trailing
separators ignored, as `pathlib` does). -/
def pathName (p : String) : String :=
  ((rstripSlash p).splitOn "/").getLastD ""

/-!
## The HTTP response model and `_request` error classification

A `Response` models the `requests.Response` the script inspects: the
numeric status, the raw body text, and the result of `response.json()`
(`some` an association list when the body parses as a JSON object of
strings — the error envelope of the service, carrying keys `error` and `code` —
and `none` when `response.json()` raises).
-/

structure Response where
  status : Nat
  text : String
  jsonBody : Option (List (String × String))
  deriving DecidableEq, Repr

/-- `requests.Response.ok` / `raise_for_status`: a response raises
exactly when its status is in [400, 600). -/
def Response.isOk (r : Response) : Bool :=
  !(400 ≤ r.status && r.status < 600)

/-- The structured error surfaced by `_request` on a failing response:
the HTTP status (carried by the `HTTPError` from `raise_for_status`)
plus the machine-readable code and human-readable message that
`_request` extracts and reports. -/
structure ApiError where
  status : Nat
  code : String
  message : String
  deriving DecidableEq, Repr

/-- Error classification in `_request`: if the body parses as JSON, the
message is the `error` entry of the body, defaulting to `Unknown error`,
and the code is the `code` entry, defaulting to `UNKNOWN`; otherwise the
message is the raw
`HTTP {status_code}: {text}` line and the code is "UNKNOWN". -/
def classifyError (r : Response) : ApiError :=
  match r.jsonBody with
  | some body =>
      { status := r.status
        code := (lookupKey body "code").getD "UNKNOWN"
        message := (lookupKey body "error").getD "Unknown error" }
  | none =>
      { status := r.status
        code := "UNKNOWN"
        message := "HTTP " ++ toString r.status ++ ": " ++ r.text }

/-- Outcome of `_request`: the response itself when `response.ok`,
otherwise the structured failure. -/
def requestOutcome (r : Response) : Except ApiError Response :=
  if r.isOk then Except.ok r else Except.error (classifyError r)

/-- The stderr diagnostic lines `_request` prints for a failing
response (two lines for a JSON body, one raw line otherwise). -/
def requestErrorLines (r : Response) : List String :=
  match r.jsonBody with
  | some body =>
      ["API Error: " ++ (lookupKey body "error").getD "Unknown error",
       "Error Code: " ++ (lookupKey body "code").getD "UNKNOWN"]
  | none =>
      ["HTTP " ++ toString r.status ++ ": " ++ r.text]

/-- The stderr diagnostic lines `create_hashlist` prints for a failing
response: for a JSON body only the `API Error` line (no `Error Code`
line), otherwise the same raw line as `_request`. -/
def uploadErrorLines (r : Response) : List String :=
  match r.jsonBody with
  | some body =>
      ["API Error: " ++ (lookupKey body "error").getD "Unknown error"]
  | none =>
      ["HTTP " ++ toString r.status ++ ": " ++ r.text]

/-!
## The client and its gateway operations

`Client` is the state `__init__` builds: the base URL with trailing
slashes removed, and the two credentials. The session header dict is
the one `__init__` installs. Each gateway method is a pure reader of
this state; `Client.run` maps an operation to the request it sends,
returning the (unchanged) client state alongside.
-/

structure Client where
  base_url : String
  email : String
  api_key : String
  deriving DecidableEq, Repr

/-- `KrakenHashesClient.__init__`: strips trailing slashes off the base
URL and stores the credentials. -/
def Client.init (base_url email api_key : String) : Client :=
  { base_url := rstripSlash base_url, email := email, api_key := api_key }

/-- The headers `__init__` installs on the session and which the
session attaches to every request it sends. -/
def Client.sessionHeaders (c : Client) : List (String × String) :=
  [("X-User-Email", c.email),
   ("X-API-Key", c.api_key),
   ("Content-Type", "application/json")]

/-- The file part of a multipart upload: form-field name, file name,
and media type (the tuple passed in the `files` mapping of the POST). -/
structure FilePart where
  field : String
  filename : String
  mediaType : String
  deriving DecidableEq, Repr

/-- An outgoing HTTP request as the script assembles it: method, full
URL, headers, query parameters, and either a JSON body or multipart
file/form data. -/
structure Request where
  method : String
  url : String
  headers : List (String × String)
  queryParams : List (String × JVal)
  jsonBody : Option (List (String × JVal))
  filePart : Option FilePart
  formData : Option (List (String × String))
  deriving DecidableEq, Repr

/-- Request assembly in `_request`: URL joined from the stored base URL
and the endpoint with leading slashes stripped, session headers, and
whatever params/body the gateway method passed. -/
def Client.mkRequest (c : Client) (method endpoint : String)
    (queryParams : List (String × JVal))
    (jsonBody : Option (List (String × JVal))) : Request :=
  { method := method
    url := c.base_url ++ "/" ++ lstripSlash endpoint
    headers := c.sessionHeaders
    queryParams := queryParams
    jsonBody := jsonBody
    filePart := none
    formData := none }

/-- Body built by `create_client`: `name` always; `description` and
`domain` only when truthy (`if description:` / `if domain:`);
`data_retention_months` whenever supplied (`is not None`). -/
def createClientBody (name : String) (description domain : Option String)
    (data_retention_months : Option Int) : List (String × JVal) :=
  [("name", JVal.str name)]
  ++ (if truthyStr description then [("description", JVal.str (description.getD ""))] else [])
  ++ (if truthyStr domain then [("domain", JVal.str (domain.getD ""))] else [])
  ++ (match data_retention_months with
      | some n => [("data_retention_months", JVal.int n)]
      | none => [])

/-- Body built by `update_client`: `name` only when truthy;
`description` and `domain` whenever supplied (`is not None`). -/
def updateClientBody (name description domain : Option String) :
    List (String × JVal) :=
  (if truthyStr name then [("name", JVal.str (name.getD ""))] else [])
  ++ (match description with
      | some s => [("description", JVal.str s)]
      | none => [])
  ++ (match domain with
      | some s => [("domain", JVal.str s)]
      | none => [])

/-- Body built by `update_agent`: `name` only when truthy;
`extra_parameters` and `is_enabled` whenever supplied (`is not None`). -/
def updateAgentBody (name extra_parameters : Option String)
    (is_enabled : Option Bool) : List (String × JVal) :=
  (if truthyStr name then [("name", JVal.str (name.getD ""))] else [])
  ++ (match extra_parameters with
      | some s => [("extra_parameters", JVal.str s)]
      | none => [])
  ++ (match is_enabled with
      | some b => [("is_enabled", JVal.bool b)]
      | none => [])

/-- Body built by `create_job`: all five fields, always. -/
def createJobBody (name : String) (hashlist_id preset_job_id priority max_agents : Int) :
    List (String × JVal) :=
  [("name", JVal.str name),
   ("hashlist_id", JVal.int hashlist_id),
   ("preset_job_id", JVal.int preset_job_id),
   ("priority", JVal.int priority),
   ("max_agents", JVal.int max_agents)]

/-- Body built by `update_job`: `name` only when truthy; `priority` and
`max_agents` whenever supplied (`is not None`). -/
def updateJobBody (name : Option String) (priority max_agents : Option Int) :
    List (String × JVal) :=
  (if truthyStr name then [("name", JVal.str (name.getD ""))] else [])
  ++ (match priority with
      | some n => [("priority", JVal.int n)]
      | none => [])
  ++ (match max_agents with
      | some n => [("max_agents", JVal.int n)]
      | none => [])

/-- Pagination params shared by the list endpoints. -/
def pageParams (page page_size : Int) : List (String × JVal) :=
  [("page", JVal.int page), ("page_size", JVal.int page_size)]

/-- Params built by `list_hashlists`: pagination plus `client_id` and
`search`, each only when truthy. -/
def listHashlistsParams (page page_size : Int)
    (client_id search : Option String) : List (String × JVal) :=
  pageParams page page_size
  ++ (if truthyStr client_id then [("client_id", JVal.str (client_id.getD ""))] else [])
  ++ (if truthyStr search then [("search", JVal.str (search.getD ""))] else [])

/-- Params built by `list_agents`: pagination plus `status` only when
truthy. -/
def listAgentsParams (page page_size : Int) (status : Option String) :
    List (String × JVal) :=
  pageParams page page_size
  ++ (if truthyStr status then [("status", JVal.str (status.getD ""))] else [])

/-- Params built by `list_jobs`: pagination plus `status`,
`hashlist_id`, `client_id`, each only when truthy (note `if hashlist_id:`
treats 0 as absent). -/
def listJobsParams (page page_size : Int) (status : Option String)
    (hashlist_id : Option Int) (client_id : Option String) :
    List (String × JVal) :=
  pageParams page page_size
  ++ (if truthyStr status then [("status", JVal.str (status.getD ""))] else [])
  ++ (if truthyInt hashlist_id then [("hashlist_id", JVal.int (hashlist_id.getD 0))] else [])
  ++ (if truthyStr client_id then [("client_id", JVal.str (client_id.getD ""))] else [])

/-- `str(enabled_only).lower()`. -/
def pyBoolStr (b : Bool) : String :=
  if b then "true" else "false"

/-- Form fields built by `create_hashlist`: `name`, `hash_type_id` as
`str(hash_type_id)`, and `client_id` only when truthy (`if client_id:`). -/
def createHashlistFields (name : String) (hash_type_id : Int)
    (client_id : Option String) : List (String × String) :=
  [("name", name), ("hash_type_id", toString hash_type_id)]
  ++ (if truthyStr client_id then [("client_id", client_id.getD "")] else [])

/-- The request `create_hashlist` sends: POST to `{base_url}/hashlists`
with the session headers minus any `Content-Type` (case-insensitive
filter), one file part named "file" carrying the base name of the file and a
`text/plain` media type, and the plain form fields. -/
def Client.createHashlistRequest (c : Client) (name : String)
    (hash_type_id : Int) (file_path : String) (client_id : Option String) :
    Request :=
  { method := "POST"
    url := c.base_url ++ "/hashlists"
    headers := c.sessionHeaders.filter (fun kv => asciiLower kv.1 ≠ "content-type")
    queryParams := []
    jsonBody := none
    filePart := some { field := "file", filename := pathName file_path, mediaType := "text/plain" }
    formData := some (createHashlistFields name hash_type_id client_id) }

/-- One gateway operation together with its caller-supplied arguments
(defaults are the Python defaults, supplied at the call site). -/
inductive Operation where
  | createClient (name : String) (description domain : Option String)
      (data_retention_months : Option Int)
  | listClients (page page_size : Int)
  | getClient (client_id : String)
  | updateClient (client_id : String) (name description domain : Option String)
  | deleteClient (client_id : String)
  | createHashlist (name : String) (hash_type_id : Int) (file_path : String)
      (client_id : Option String)
  | listHashlists (page page_size : Int) (client_id search : Option String)
  | getHashlist (hashlist_id : Int)
  | deleteHashlist (hashlist_id : Int)
  | generateVoucher (is_continuous : Bool)
  | listAgents (page page_size : Int) (status : Option String)
  | getAgent (agent_id : Int)
  | updateAgent (agent_id : Int) (name extra_parameters : Option String)
      (is_enabled : Option Bool)
  | deleteAgent (agent_id : Int)
  | createJob (name : String) (hashlist_id preset_job_id priority max_agents : Int)
  | listJobs (page page_size : Int) (status : Option String)
      (hashlist_id : Option Int) (client_id : Option String)
  | getJob (job_id : Int)
  | updateJob (job_id : Int) (name : Option String) (priority max_agents : Option Int)
  | getJobLayers (job_id : Int)
  | getJobLayerTasks (job_id layer_id page page_size : Int)
  | listHashTypes (enabled_only : Bool)
  | listWorkflows
  | listPresetJobs
  deriving DecidableEq, Repr

/-- Run one gateway method on the client: the request it sends and the
client state afterwards (no method writes `self.base_url` or the
session headers, so the state is returned unchanged in every branch). -/
def Client.run (c : Client) (op : Operation) : Request × Client :=
  match op with
  | .createClient name d dom drm =>
      (c.mkRequest "POST" "/clients" [] (some (createClientBody name d dom drm)), c)
  | .listClients page page_size =>
      (c.mkRequest "GET" "/clients" (pageParams page page_size) none, c)
  | .getClient cid =>
      (c.mkRequest "GET" ("/clients/" ++ cid) [] none, c)
  | .updateClient cid name d dom =>
      (c.mkRequest "PATCH" ("/clients/" ++ cid) [] (some (updateClientBody name d dom)), c)
  | .deleteClient cid =>
      (c.mkRequest "DELETE" ("/clients/" ++ cid) [] none, c)
  | .createHashlist name htid fp cid =>
      (c.createHashlistRequest name htid fp cid, c)
  | .listHashlists page page_size cid search =>
      (c.mkRequest "GET" "/hashlists" (listHashlistsParams page page_size cid search) none, c)
  | .getHashlist hid =>
      (c.mkRequest "GET" ("/hashlists/" ++ toString hid) [] none, c)
  | .deleteHashlist hid =>
      (c.mkRequest "DELETE" ("/hashlists/" ++ toString hid) [] none, c)
  | .generateVoucher is_continuous =>
      (c.mkRequest "POST" "/agents/vouchers" []
        (some [("is_continuous", JVal.bool is_continuous)]), c)
  | .listAgents page page_size status =>
      (c.mkRequest "GET" "/agents" (listAgentsParams page page_size status) none, c)
  | .getAgent aid =>
      (c.mkRequest "GET" ("/agents/" ++ toString aid) [] none, c)
  | .updateAgent aid name xp en =>
      (c.mkRequest "PATCH" ("/agents/" ++ toString aid) []
        (some (updateAgentBody name xp en)), c)
  | .deleteAgent aid =>
      (c.mkRequest "DELETE" ("/agents/" ++ toString aid) [] none, c)
  | .createJob name hid pjid prio maxa =>
      (c.mkRequest "POST" "/jobs" [] (some (createJobBody name hid pjid prio maxa)), c)
  | .listJobs page page_size status hid cid =>
      (c.mkRequest "GET" "/jobs" (listJobsParams page page_size status hid cid) none, c)
  | .getJob jid =>
      (c.mkRequest "GET" ("/jobs/" ++ toString jid) [] none, c)
  | .updateJob jid name prio maxa =>
      (c.mkRequest "PATCH" ("/jobs/" ++ toString jid) []
        (some (updateJobBody name prio maxa)), c)
  | .getJobLayers jid =>
      (c.mkRequest "GET" ("/jobs/" ++ toString jid ++ "/layers") [] none, c)
  | .getJobLayerTasks jid lid page page_size =>
      (c.mkRequest "GET" ("/jobs/" ++ toString jid ++ "/layers/" ++ toString lid)
        (pageParams page page_size) none, c)
  | .listHashTypes enabled_only =>
      (c.mkRequest "GET" "/hash-types"
        [("enabled_only", JVal.str (pyBoolStr enabled_only))] none, c)
  | .listWorkflows =>
      (c.mkRequest "GET" "/workflows" [] none, c)
  | .listPresetJobs =>
      (c.mkRequest "GET" "/preset-jobs" [] none, c)

/-!
## Multipart upload execution (`create_hashlist` body)

Models the `with open` block (binary read mode) around the POST:
the possible results of `requests.post` (a response, or a raised
network exception) and the file-handle events the block performs.
-/

/-- File-handle and network events during `create_hashlist`. -/
inductive UEvent where
  | openFile
  | post
  | closeFile
  deriving DecidableEq, BEq, Repr

/-- Result of the `requests.post` call itself: a response, or a raised
network-level exception. -/
inductive NetResult where
  | got (r : Response)
  | raised (msg : String)
  deriving DecidableEq, Repr

/-- Outcome of `create_hashlist`: the parsed response on success, the
`HTTPError` (carrying the status) from `raise_for_status` on a failing
response, or the propagated network exception. -/
inductive UploadOutcome where
  | success (r : Response)
  | httpError (status : Nat)
  | netRaised (msg : String)
  deriving DecidableEq, Repr

/-- The body of the `with` block: POST the form, then either return the
response, raise for a failing status, or propagate a network
exception. The event list records the I/O performed inside the block. -/
def uploadBodyRun (res : NetResult) : List UEvent × UploadOutcome :=
  match res with
  | .raised m => ([UEvent.post], UploadOutcome.netRaised m)
  | .got r =>
      if r.isOk then ([UEvent.post], UploadOutcome.success r)
      else ([UEvent.post], UploadOutcome.httpError r.status)

/-- Python `with open(...)` semantics: the handle is opened before the
body and closed when the block exits, on normal and exceptional exit
alike (the outcome, raised or not, passes through unchanged). -/
def withOpenFile (body : List UEvent × UploadOutcome) :
    List UEvent × UploadOutcome :=
  (UEvent.openFile :: body.1 ++ [UEvent.closeFile], body.2)

/-- Execution of the upload in `create_hashlist` for a given network result. -/
def createHashlistRun (res : NetResult) : List UEvent × UploadOutcome :=
  withOpenFile (uploadBodyRun res)

/-- Upload-side success/failure classification: `if not response.ok:
... raise_for_status()`, identical condition to `_request`; the raised
error carries the status. -/
def uploadOutcome (r : Response) : Except Nat Response :=
  if r.isOk then Except.ok r else Except.error r.status

/-!
## The job monitor (`job_monitoring_example` polling loop)

The loop repeatedly calls `get_job`; breaks on a terminal status;
otherwise, when the `increment_mode` entry of the payload is absent or
differs from `off`, also calls
`get_job_layers`; then sleeps and repeats. After the loop it reports
the final status and `cracked_count`/`total_hashes` (each defaulting
to 0 via `.get`). We run the loop against a finite oracle of successive
poll payloads; if the oracle is exhausted before a terminal status the
run is incomplete (`none` report).
-/

/-- The fields of a polled job payload that the monitor reads. `get`
accessors that may be absent are `Option`. -/
structure JobView where
  status : String
  increment_mode : Option String
  cracked_count : Option Nat
  total_hashes : Option Nat
  deriving DecidableEq, Repr

/-- Terminal-status test of the loop: the status equals `completed` or `failed`. -/
def isTerminal (s : String) : Bool :=
  s == "completed" || s == "failed"

/-- API calls the monitor makes, in order. -/
inductive MEvent where
  | fetchJob (j : JobView)
  | fetchLayers
  deriving DecidableEq, BEq, Repr

/-- The final report printed after the loop: status, and
`cracked_count`/`total_hashes` from the last polled payload. -/
structure FinalReport where
  status : String
  cracked : Nat
  total : Nat
  deriving DecidableEq, Repr

/-- Run the monitoring loop against successive poll payloads: the trace
of API calls, and the final report when a terminal status was reached
within the supplied polls. -/
def runMonitor : List JobView → List MEvent × Option FinalReport
  | [] => ([], none)
  | j :: rest =>
      if isTerminal j.status then
        ([MEvent.fetchJob j],
         some { status := j.status
                cracked := j.cracked_count.getD 0
                total := j.total_hashes.getD 0 })
      else
        let tail := runMonitor rest
        (MEvent.fetchJob j ::
          ((if j.increment_mode ≠ some "off" then [MEvent.fetchLayers] else [])
            ++ tail.1),
         tail.2)

/-- The trace of API calls the monitor makes. -/
def monitorTrace (polls : List JobView) : List MEvent :=
  (runMonitor polls).1

/-- Number of `get_job` polls in a trace. -/
def pollCount (t : List MEvent) : Nat :=
  t.countP fun e =>
    match e with
    | MEvent.fetchJob _ => true
    | MEvent.fetchLayers => false

/-- Which operation overrides the JSON content type (only the multipart
upload does). -/
def isMultipart : Operation → Bool
  | .createHashlist _ _ _ _ => true
  | _ => false

/-!
## Theorems

Helper lemmas first, then one theorem per verified claim.
-/

/-- The outgoing multipart headers: the case-insensitive filter removes
the one Content-Type entry and keeps the two identity headers. -/
theorem multipart_headers (c : Client) (name : String) (htid : Int)
    (fp : String) (cid : Option String) :
    (c.createHashlistRequest name htid fp cid).headers
      = [("X-User-Email", c.email), ("X-API-Key", c.api_key)] := rfl

/-- Trace of the monitor when the first polled status is terminal. -/
theorem monitorTrace_terminal (j : JobView) (rest : List JobView)
    (h : isTerminal j.status = true) :
    monitorTrace (j :: rest) = [MEvent.fetchJob j] := by
  simp [monitorTrace, runMonitor, h]

/-- Trace step for a non-terminal poll with increment mode `off`. -/
theorem monitorTrace_off (j : JobView) (rest : List JobView)
    (h : isTerminal j.status = false) (hi : j.increment_mode = some "off") :
    monitorTrace (j :: rest) = MEvent.fetchJob j :: monitorTrace rest := by
  simp [monitorTrace, runMonitor, h, hi]

/-- Trace step for a non-terminal poll whose increment mode differs
from `off` (including an absent entry): a layer fetch follows. -/
theorem monitorTrace_inc (j : JobView) (rest : List JobView)
    (h : isTerminal j.status = false) (hi : j.increment_mode ≠ some "off") :
    monitorTrace (j :: rest)
      = MEvent.fetchJob j :: MEvent.fetchLayers :: monitorTrace rest := by
  simp [monitorTrace, runMonitor, h, hi]

/-- A run over polls that all carry increment mode `off` never fetches
layers. -/
theorem monitorTrace_all_off (polls : List JobView)
    (h : ∀ j ∈ polls, j.increment_mode = some "off") :
    MEvent.fetchLayers ∉ monitorTrace polls := by
  induction polls with
  | nil => simp [monitorTrace, runMonitor]
  | cons j0 rest ih =>
      have h0 : j0.increment_mode = some "off" := h j0 (by simp)
      by_cases ht : isTerminal j0.status
      · rw [monitorTrace_terminal j0 rest ht]
        simp
      · rw [monitorTrace_off j0 rest (by simpa using ht) h0]
        simp only [List.mem_cons, not_or]
        exact ⟨by simp, ih (fun j hj => h j (by simp [hj]))⟩

/-- Every non-terminal job fetch whose payload does not carry increment
mode `off` is immediately followed by a layer fetch in the trace. -/
theorem monitorTrace_layers_follow (polls : List JobView) :
    ∀ (i : Nat) (j : JobView),
      (monitorTrace polls).get? i = some (MEvent.fetchJob j) →
      isTerminal j.status = false → j.increment_mode ≠ some "off" →
      (monitorTrace polls).get? (i + 1) = some MEvent.fetchLayers := by
  induction polls with
  | nil =>
      intro i j hget
      simp [monitorTrace, runMonitor] at hget
  | cons j0 rest ih =>
      intro i j hget hterm hinc
      by_cases ht : isTerminal j0.status
      · rw [monitorTrace_terminal j0 rest ht] at hget
        cases i with
        | zero =>
            simp at hget
            rw [← hget] at hterm
            rw [hterm] at ht
            cases ht
        | succ n => simp at hget
      · have ht' : isTerminal j0.status = false := by simpa using ht
        by_cases hi : j0.increment_mode = some "off"
        · rw [monitorTrace_off j0 rest ht' hi] at hget ⊢
          cases i with
          | zero =>
              simp at hget
              rw [← hget] at hinc
              exact absurd hi hinc
          | succ n =>
              simp only [List.get?_cons_succ] at hget ⊢
              exact ih n j hget hterm hinc
        · rw [monitorTrace_inc j0 rest ht' hi] at hget ⊢
          cases i with
          | zero => rfl
          | succ n =>
              cases n with
              | zero => simp at hget
              | succ m =>
                  simp only [List.get?_cons_succ] at hget ⊢
                  exact ih m j hget hterm hinc

/-- C1 (amended): for every response whose status lies in the failing
range [400, 600) — the code tests `response.ok`, so 2xx and 3xx alike
are treated as success — the operation fails with a structured error
carrying the HTTP status code; the code and message come from the JSON
body when it parses (with the documented defaults), and otherwise the
message is the raw status line plus response text with code UNKNOWN.
The caller recovers both code and message from the `ApiError`. -/
theorem transport_error_classification (r : Response)
    (h1 : 400 ≤ r.status) (h2 : r.status < 600) :
    requestOutcome r = Except.error (classifyError r) ∧
    (classifyError r).status = r.status ∧
    (∀ body, r.jsonBody = some body →
      (classifyError r).code = (lookupKey body "code").getD "UNKNOWN" ∧
      (classifyError r).message = (lookupKey body "error").getD "Unknown error") ∧
    (r.jsonBody = none →
      (classifyError r).code = "UNKNOWN" ∧
      (classifyError r).message = "HTTP " ++ toString r.status ++ ": " ++ r.text) := by
  refine ⟨?_, ?_, ?_, ?_⟩
  · simp [requestOutcome, Response.isOk, h1, h2]
  · cases hb : r.jsonBody <;> simp [classifyError, hb]
  · intro body hb
    simp [classifyError, hb]
  · intro hb
    simp [classifyError, hb]

/-- C1 (witness): a 404 with JSON body mapping `error` to x and `code`
to Y yields the structured error with exactly those fields. -/
theorem transport_error_classification_witness :
    (classifyError ⟨404, "nf", some [("error", "x"), ("code", "Y")]⟩).status = 404 ∧
    (classifyError ⟨404, "nf", some [("error", "x"), ("code", "Y")]⟩).code = "Y" ∧
    (classifyError ⟨404, "nf", some [("error", "x"), ("code", "Y")]⟩).message = "x" := by
  have h := transport_error_classification ⟨404, "nf", some [("error", "x"), ("code", "Y")]⟩
    (by decide) (by decide)
  refine ⟨h.2.1, ?_, ?_⟩
  · have hc := (h.2.2.1 _ rfl).1
    simpa [lookupKey] using hc
  · have hm := (h.2.2.1 _ rfl).2
    simpa [lookupKey] using hm

/-- C1 (counterexample): a response with status 304 is outside the 2xx
range, yet the operation does not fail — `_request` checks
`response.ok`, which only fails for statuses in [400, 600), so the
response is returned as a success. -/
theorem status304_not_failure :
    ¬(200 ≤ 304 ∧ 304 ≤ 299) ∧
    requestOutcome ⟨304, "x", none⟩ = Except.ok ⟨304, "x", none⟩ :=
  ⟨by decide, rfl⟩

/-- C2 (counterexample): `create_client` decides `description` and
`domain` by truthiness (`if description:`), so an explicitly passed
empty string is omitted from the payload, contradicting presence-based
inclusion. -/
theorem create_client_empty_string_dropped :
    hasKey (createClientBody "Acme" (some "") (some "") none) "description" = false ∧
    hasKey (createClientBody "Acme" (some "") (some "") none) "domain" = false := by
  decide

/-- C2 (amended): the update operations decide inclusion by presence —
`update_client` sends `description`/`domain` and `update_agent` sends
`extra_parameters`/`is_enabled` whenever supplied, including an empty
string or `False` — and a field the caller does not supply is omitted
entirely everywhere; but `create_client` decides `description` and
`domain` by truthiness, so an explicitly passed empty string is omitted
there. -/
theorem optional_field_inclusion :
    (∀ n dom, lookupKey (updateClientBody n (some "") dom) "description"
        = some (JVal.str "")) ∧
    (∀ n d, lookupKey (updateClientBody n d (some "")) "domain"
        = some (JVal.str "")) ∧
    (∀ n en, lookupKey (updateAgentBody n (some "") en) "extra_parameters"
        = some (JVal.str "")) ∧
    (∀ n xp, lookupKey (updateAgentBody n xp (some false)) "is_enabled"
        = some (JVal.bool false)) ∧
    (∀ nm, createClientBody nm none none none = [("name", JVal.str nm)]) ∧
    (∀ n, hasKey (updateClientBody n none none) "description" = false ∧
          hasKey (updateClientBody n none none) "domain" = false) ∧
    (∀ n, hasKey (updateAgentBody n none none) "extra_parameters" = false ∧
          hasKey (updateAgentBody n none none) "is_enabled" = false) ∧
    (∀ nm dm drm, hasKey (createClientBody nm (some "") dm drm) "description" = false) ∧
    (∀ nm ds drm, hasKey (createClientBody nm ds (some "") drm) "domain" = false) := by
  refine ⟨?_, ?_, ?_, ?_, ?_, ?_, ?_, ?_, ?_⟩
  · intro n dom
    cases hn : truthyStr n <;> cases dom <;>
      simp [updateClientBody, lookupKey, hn]
  · intro n d
    cases hn : truthyStr n <;> cases d <;>
      simp [updateClientBody, lookupKey, hn]
  · intro n en
    cases hn : truthyStr n <;> cases en <;>
      simp [updateAgentBody, lookupKey, hn]
  · intro n xp
    cases hn : truthyStr n <;> cases xp <;>
      simp [updateAgentBody, lookupKey, hn]
  · intro nm
    simp [createClientBody, truthyStr]
  · intro n
    cases hn : truthyStr n <;>
      simp [updateClientBody, hasKey, lookupKey, hn]
  · intro n
    cases hn : truthyStr n <;>
      simp [updateAgentBody, hasKey, lookupKey, hn]
  · intro nm dm drm
    have h0 : truthyStr (some "") = false := rfl
    cases hd : truthyStr dm <;> cases drm <;>
      simp [createClientBody, hasKey, lookupKey, h0, hd]
  · intro nm ds drm
    have h0 : truthyStr (some "") = false := rfl
    cases hd : truthyStr ds <;> cases drm <;>
      simp [createClientBody, hasKey, lookupKey, h0, hd]

/-- C6 (counterexample): on a 404 with a JSON error body the multipart
error path reports strictly less than `_request` does — it prints no
`Error Code` line, so the two error paths are not equivalent. -/
theorem upload_error_lines_drop_code :
    uploadErrorLines ⟨404, "t", some [("error", "x"), ("code", "Y")]⟩
      ≠ requestErrorLines ⟨404, "t", some [("error", "x"), ("code", "Y")]⟩ := by
  decide

/-- C6 (amended): the multipart path classifies success/failure by the
same `response.ok` test and raises the same HTTP error status as
`_request`, and its raw-text fallback for a non-JSON body is identical;
but for a JSON body it reports only the message line and never extracts
the `code` field. -/
theorem upload_error_path_comparison :
    (∀ r : Response,
      (∃ e, requestOutcome r = Except.error e ∧ e.status = r.status) ↔
        uploadOutcome r = Except.error r.status) ∧
    (∀ r : Response,
      uploadErrorLines r =
        match r.jsonBody with
        | some _ => (requestErrorLines r).take 1
        | none => requestErrorLines r) := by
  constructor
  · intro r
    by_cases h : r.isOk
    · simp [requestOutcome, uploadOutcome, h]
    · constructor
      · intro _
        simp [uploadOutcome, h]
      · intro _
        refine ⟨classifyError r, ?_, ?_⟩
        · simp [requestOutcome, h]
        · cases hb : r.jsonBody <;> simp [classifyError, hb]
  · intro r
    cases hb : r.jsonBody <;> simp [uploadErrorLines, requestErrorLines, hb]

/-- C6 (witness): on a 500 with a non-JSON body the two error paths
print the same single raw line. -/
theorem upload_error_path_comparison_witness :
    uploadErrorLines ⟨500, "boom", none⟩ = requestErrorLines ⟨500, "boom", none⟩ := by
  have h := upload_error_path_comparison.2 ⟨500, "boom", none⟩
  simpa using h

/-- C8: in every upload run — success, HTTP failure, or a network
exception raised by the POST itself — the file handle is opened first,
closed last, and opened and closed exactly once; a raised exception
still propagates as the outcome. -/
theorem upload_file_handle_scoped :
    (∀ res : NetResult,
      (createHashlistRun res).1 = [UEvent.openFile, UEvent.post, UEvent.closeFile] ∧
      (createHashlistRun res).1.getLast? = some UEvent.closeFile ∧
      (createHashlistRun res).1.count UEvent.openFile = 1 ∧
      (createHashlistRun res).1.count UEvent.closeFile = 1) ∧
    (∀ m, (createHashlistRun (NetResult.raised m)).2 = UploadOutcome.netRaised m) := by
  constructor
  · intro res
    have htr : (createHashlistRun res).1
        = [UEvent.openFile, UEvent.post, UEvent.closeFile] := by
      cases res with
      | raised m => rfl
      | got r =>
          by_cases h : r.isOk <;>
            simp [createHashlistRun, uploadBodyRun, withOpenFile, h]
    refine ⟨htr, ?_, ?_, ?_⟩ <;> rw [htr] <;> rfl
  · intro m
    rfl

/-- C10: in every list operation a falsy filter value — empty-string
`status`/`client_id`/`search`, or `hashlist_id` 0 — is omitted from the
query parameters exactly as if it had not been supplied, while `page`
and `page_size` are always sent (the Python defaults are 1 and 20). -/
theorem list_filter_truthiness :
    (∀ p ps, listJobsParams p ps (some "") (some 0) (some "") = pageParams p ps) ∧
    (∀ p ps, listJobsParams p ps none none none = pageParams p ps) ∧
    (∀ p ps, listHashlistsParams p ps (some "") (some "") = pageParams p ps) ∧
    (∀ p ps, listHashlistsParams p ps none none = pageParams p ps) ∧
    (∀ p ps, listAgentsParams p ps (some "") = pageParams p ps) ∧
    (∀ p ps, listAgentsParams p ps none = pageParams p ps) ∧
    (∀ p ps st hid cid,
      lookupKey (listJobsParams p ps st hid cid) "page" = some (JVal.int p) ∧
      lookupKey (listJobsParams p ps st hid cid) "page_size" = some (JVal.int ps)) ∧
    (∀ p ps cid se,
      lookupKey (listHashlistsParams p ps cid se) "page" = some (JVal.int p) ∧
      lookupKey (listHashlistsParams p ps cid se) "page_size" = some (JVal.int ps)) ∧
    (∀ p ps st,
      lookupKey (listAgentsParams p ps st) "page" = some (JVal.int p) ∧
      lookupKey (listAgentsParams p ps st) "page_size" = some (JVal.int ps)) ∧
    pageParams 1 20 = [("page", JVal.int 1), ("page_size", JVal.int 20)] := by
  refine ⟨?_, ?_, ?_, ?_, ?_, ?_, ?_, ?_, ?_, rfl⟩ <;>
    intros <;>
    simp [listJobsParams, listHashlistsParams, listAgentsParams, pageParams,
      truthyStr, truthyInt, lookupKey]

/-- C5: the multipart upload request carries no Content-Type header at
all (in particular not `application/json`); its single file part is
named "file" with the base name of the source file and media type
`text/plain`; its plain form fields are `name`, `hash_type_id` in
textual form, and `client_id` only when the caller supplied it (a
caller who supplies nothing gets no `client_id` field). -/
theorem multipart_request_shape :
    (∀ (c : Client) (name : String) (htid : Int) (fp : String) (cid : Option String),
      (∀ p ∈ (c.createHashlistRequest name htid fp cid).headers,
          asciiLower p.1 ≠ "content-type") ∧
      (c.createHashlistRequest name htid fp cid).jsonBody = none ∧
      (c.createHashlistRequest name htid fp cid).filePart
        = some { field := "file", filename := pathName fp, mediaType := "text/plain" } ∧
      (c.createHashlistRequest name htid fp cid).formData
        = some (createHashlistFields name htid cid) ∧
      lookupKey (createHashlistFields name htid cid) "name" = some name ∧
      lookupKey (createHashlistFields name htid cid) "hash_type_id"
        = some (toString htid) ∧
      (∀ p ∈ createHashlistFields name htid cid,
        p.1 = "name" ∨ p.1 = "hash_type_id" ∨ p.1 = "client_id") ∧
      (hasKey (createHashlistFields name htid cid) "client_id" = true →
        ∃ s, cid = some s)) ∧
    (∀ name htid, hasKey (createHashlistFields name htid none) "client_id" = false) := by
  constructor
  · intro c name htid fp cid
    refine ⟨?_, rfl, rfl, rfl, ?_, ?_, ?_, ?_⟩
    · rw [multipart_headers]
      intro p hp
      simp only [List.mem_cons, List.not_mem_nil, or_false] at hp
      rcases hp with rfl | rfl
      · exact (by decide : asciiLower "X-User-Email" ≠ "content-type")
      · exact (by decide : asciiLower "X-API-Key" ≠ "content-type")
    · cases hc : truthyStr cid <;>
        simp [createHashlistFields, lookupKey, hc]
    · cases hc : truthyStr cid <;>
        simp [createHashlistFields, lookupKey, hc]
    · cases hc : truthyStr cid with
      | false =>
          intro p hp
          simp [createHashlistFields, hc] at hp
          rcases hp with rfl | rfl
          · exact Or.inl rfl
          · exact Or.inr (Or.inl rfl)
      | true =>
          intro p hp
          simp [createHashlistFields, hc] at hp
          rcases hp with rfl | rfl | rfl
          · exact Or.inl rfl
          · exact Or.inr (Or.inl rfl)
          · exact Or.inr (Or.inr rfl)
    · cases cid with
      | none =>
          intro h
          simp [createHashlistFields, truthyStr, hasKey, lookupKey] at h
      | some s =>
          intro _
          exact ⟨s, rfl⟩
  · intro name htid
    simp [createHashlistFields, truthyStr, hasKey, lookupKey]

/-- C5 (witness): a concrete upload request carries the `name` field. -/
theorem multipart_request_shape_witness :
    lookupKey (createHashlistFields "dump" 1000 none) "name" = some "dump" :=
  ((multipart_request_shape.1 (Client.init "http://h/api/v1" "u" "k")
    "dump" 1000 "/tmp/hashes.txt" none).2.2.2.2).1

/-- C7: every request issued by every gateway operation carries the
identity headers fixed at construction; the JSON content type is
present except on the multipart upload, which carries no Content-Type
at all; and no operation mutates the client state. -/
theorem every_request_carries_auth :
    ∀ (c : Client) (op : Operation),
      ("X-User-Email", c.email) ∈ (c.run op).1.headers ∧
      ("X-API-Key", c.api_key) ∈ (c.run op).1.headers ∧
      (isMultipart op = false →
        ("Content-Type", "application/json") ∈ (c.run op).1.headers) ∧
      (isMultipart op = true →
        ∀ v, ("Content-Type", v) ∉ (c.run op).1.headers) ∧
      (c.run op).2 = c := by
  intro c op
  cases op <;>
    simp [Client.run, Client.mkRequest, Client.sessionHeaders, isMultipart,
      Client.createHashlistRequest]
  case createHashlist name htid fp cid =>
    decide

/-- C7 (witness): a concrete request carries the identity header. -/
theorem every_request_carries_auth_witness :
    ("X-User-Email", "u@example.com") ∈
      ((Client.init "http://h/api/v1" "u@example.com" "k").run
        Operation.listWorkflows).1.headers :=
  (every_request_carries_auth (Client.init "http://h/api/v1" "u@example.com" "k")
    Operation.listWorkflows).1

/-- Polls in a trace: the empty trace has none. -/
theorem pollCount_nil : pollCount [] = 0 := rfl

/-- C3: for a job polled as pending, running, running, completed, the
monitor stops exactly at the fourth poll (later oracle entries are
never consulted), issues exactly 4 job-status fetches, and reports the
final status together with `cracked_count` and `total_hashes` from the
final payload. -/
theorem monitor_four_polls (j1 j2 j3 j4 : JobView) (rest : List JobView)
    (h1 : j1.status = "pending") (h2 : j2.status = "running")
    (h3 : j3.status = "running") (h4 : j4.status = "completed") :
    runMonitor (j1 :: j2 :: j3 :: j4 :: rest) = runMonitor [j1, j2, j3, j4] ∧
    pollCount (monitorTrace (j1 :: j2 :: j3 :: j4 :: rest)) = 4 ∧
    (runMonitor (j1 :: j2 :: j3 :: j4 :: rest)).2 =
      some { status := "completed",
             cracked := j4.cracked_count.getD 0,
             total := j4.total_hashes.getD 0 } := by
  have t1 : isTerminal j1.status = false := by rw [h1]; rfl
  have t2 : isTerminal j2.status = false := by rw [h2]; rfl
  have t3 : isTerminal j3.status = false := by rw [h3]; rfl
  have t4 : isTerminal j4.status = true := by rw [h4]; rfl
  refine ⟨?_, ?_, ?_⟩
  · simp [runMonitor, t1, t2, t3, t4]
  · have htr4 : monitorTrace (j4 :: rest) = [MEvent.fetchJob j4] :=
      monitorTrace_terminal j4 rest t4
    have step : ∀ (j : JobView) (tl : List JobView), isTerminal j.status = false →
        pollCount (monitorTrace (j :: tl)) = 1 + pollCount (monitorTrace tl) := by
      intro j tl hj
      by_cases hi : j.increment_mode = some "off"
      · rw [monitorTrace_off j tl hj hi]
        simp [pollCount, List.countP_cons]
        ring
      · rw [monitorTrace_inc j tl hj hi]
        simp [pollCount, List.countP_cons]
        ring
    rw [step j1 _ t1, step j2 _ t2, step j3 _ t3, htr4]
    rfl
  · have u4 : isTerminal "completed" = true := rfl
    simp [runMonitor, t1, t2, t3, t4, h4, u4]

/-- C3 (witness): a concrete pending/running/running/completed run has
4 polls and reports 5 of 10 cracked. -/
theorem monitor_four_polls_witness :
    pollCount (monitorTrace
      [⟨"pending", some "off", none, none⟩,
       ⟨"running", some "off", none, none⟩,
       ⟨"running", some "off", none, none⟩,
       ⟨"completed", some "off", some 5, some 10⟩]) = 4 ∧
    (runMonitor
      [(⟨"pending", some "off", none, none⟩ : JobView),
       ⟨"running", some "off", none, none⟩,
       ⟨"running", some "off", none, none⟩,
       ⟨"completed", some "off", some 5, some 10⟩]).2
      = some { status := "completed", cracked := 5, total := 10 } := by
  have h := monitor_four_polls
    ⟨"pending", some "off", none, none⟩
    ⟨"running", some "off", none, none⟩
    ⟨"running", some "off", none, none⟩
    ⟨"completed", some "off", some 5, some 10⟩ [] rfl rfl rfl rfl
  exact ⟨h.2.1, h.2.2⟩

/-- C4: a job whose every observed payload carries increment mode `off`
never triggers a layer fetch; and every job fetch observing a
non-terminal payload whose increment mode differs from `off` is
immediately followed by a layer fetch, before the next poll. -/
theorem monitor_layers_policy :
    (∀ polls : List JobView,
      (∀ j ∈ polls, j.increment_mode = some "off") →
        MEvent.fetchLayers ∉ monitorTrace polls) ∧
    (∀ (polls : List JobView) (i : Nat) (j : JobView),
      (monitorTrace polls).get? i = some (MEvent.fetchJob j) →
      isTerminal j.status = false → j.increment_mode ≠ some "off" →
      (monitorTrace polls).get? (i + 1) = some MEvent.fetchLayers) :=
  ⟨monitorTrace_all_off, monitorTrace_layers_follow⟩

/-- C4 (witness): a concrete all-`off` run contains no layer fetch. -/
theorem monitor_layers_policy_witness :
    MEvent.fetchLayers ∉ monitorTrace
      [⟨"running", some "off", none, none⟩,
       ⟨"completed", some "off", some 0, some 0⟩] :=
  monitor_layers_policy.1 _ (by decide)

/-- C9: a polled payload lacking the `increment_mode` key entirely is
treated as an increment-mode job — only the exact value `off`
suppresses the layer fetch — so every non-terminal poll of such a job
is immediately followed by a layer fetch. -/
theorem monitor_missing_increment_fetches_layers :
    ∀ (polls : List JobView) (i : Nat) (j : JobView),
      (monitorTrace polls).get? i = some (MEvent.fetchJob j) →
      j.increment_mode = none → isTerminal j.status = false →
      (monitorTrace polls).get? (i + 1) = some MEvent.fetchLayers := by
  intro polls i j hget hnone hterm
  exact monitorTrace_layers_follow polls i j hget hterm (by simp [hnone])

/-- C9 (witness): a concrete run whose first payload lacks
`increment_mode` fetches layers right after the first poll. -/
theorem monitor_missing_increment_witness :
    (monitorTrace [⟨"running", none, none, none⟩,
                   ⟨"completed", none, some 1, some 2⟩]).get? 1
      = some MEvent.fetchLayers :=
  monitor_missing_increment_fetches_layers _ 0 ⟨"running", none, none, none⟩ rfl rfl rfl

end KrakenHashes
